import Mathlib

/-
Verification of the webservice provisioning component of the mlops-club repository,
embedded from src/awscdk-metaflow/cdk_metaflow/webservice/webservice.py.

The embedding models:
  * the PortMapping dataclass and its static helpers (lines 36-70);
  * the validation assertions at the start of Webservice.__init__ (lines 201-218),
    with Python truthiness made explicit;
  * the construction sequence of Webservice.__init__ (lines 220-286) as an emission
    trace of CDK constructs.  Each CDK construct carries a (scope, id) pair, and the
    constructs library rejects a second construct with the same id in the same scope;
    that uniqueness rule is modelled by the emit function below, and the capacity
    validation of the pinned aws-cdk 2.45.0 ScalableTarget (RangeError on negative
    or inverted bounds) by scalable_target_capacity_check;
  * configure_ecs_service_auto_scaling (lines 351-372) as a pure description of the
    scalable target and its two scaling policies.
-/

set_option autoImplicit false

namespace CdkMetaflow

/-- Port mapping from the load balancer to the container
(webservice.py lines 36-42). -/
structure PortMapping where
  listener_port : Int
  container_port : Int
  path_pattern : String := "*"
deriving DecidableEq

/-- Return true if any of the port mappings conflict: each listener port should
appear only once (webservice.py lines 44-56; the source counts occurrences of each
listener port with a Counter and reports a conflict when any count exceeds one). -/
def PortMapping.do_port_mappings_conflict (port_mappings : List PortMapping) : Bool :=
  let listener_ports := port_mappings.map (fun pm => pm.listener_port)
  listener_ports.any (fun p => 1 < listener_ports.count p)

/-- webservice.py lines 64-66. -/
def PortMapping.list_listener_ports (port_mappings : List PortMapping) : List Int :=
  port_mappings.map (fun pm => pm.listener_port)

/-- webservice.py lines 68-70. -/
def PortMapping.list_container_ports (port_mappings : List PortMapping) : List Int :=
  port_mappings.map (fun pm => pm.container_port)

/-- Python truthiness of an optional string: None and the empty string are falsy. -/
def strTruthy : Option String → Bool
  | none => false
  | some s => !(s == "")

/-- Python truthiness of an optional int: None and 0 are falsy. -/
def intTruthy : Option Int → Bool
  | none => false
  | some n => !(n == 0)

/-- Python truthiness of an optional object reference (CDK objects are always truthy). -/
def objTruthy : Option Unit → Bool
  | none => false
  | some _ => true

/-- Python truthiness of an optional dict: None and the empty dict are falsy. -/
def dictTruthy : Option (List (String × String)) → Bool
  | none => false
  | some l => !l.isEmpty

/-- The keyword arguments of Webservice.__init__ that the validation and
construction logic reads (webservice.py lines 168-196).  Object-valued optional
parameters (docker_image, load_balancer, ecs_cluster_in_vpc) are modelled as
opaque Option Unit values, string/path parameters as Option String. -/
structure WebserviceProps where
  construct_id : String
  load_balancer_to_container_port_mappings : List PortMapping
  health_check_path : String
  ecs_memory_limit_mb : Int := 512
  ecs_cpu_size : Int := 256
  ecs_desired_num_instances : Int := 1
  min_tasks : Int := 1
  max_tasks : Int := 1
  health_check_port : Option Int := none
  reachable_outside_vpc : Bool := false
  scale_in_cooldown_seconds : Option Int := none
  scale_out_cooldown_seconds : Option Int := none
  target_memory_utilization_percent : Int := 50
  target_cpu_utilization_percent : Int := 50
  relative_dockerfile_path : Option String := none
  vpc_id : Option String := none
  docker_build_context : Option String := none
  docker_build_args : Option (List (String × String)) := none
  docker_image : Option Unit := none
  load_balancer : Option Unit := none
  ecs_cluster_in_vpc : Option Unit := none
deriving DecidableEq

/-- Failures of a Webservice invocation.  The validation assertions of
webservice.py raise AssertionError with a message (assertionError); the CDK
image asset call with a None directory fails on the jsii boundary
(imageResolutionError); the constructs library rejects a second construct with
an id already used in the same scope (duplicateConstructId); and the pinned
aws-cdk 2.45.0 ScalableTarget constructor rejects invalid capacity bounds with
a RangeError (rangeError). -/
inductive InitError where
  | assertionError (message : String)
  | imageResolutionError
  | duplicateConstructId (id : String)
  | rangeError (message : String)
deriving DecidableEq

instance {ε α : Type} [DecidableEq ε] [DecidableEq α] : DecidableEq (Except ε α) := fun a b =>
  match a, b with
  | Except.error e1, Except.error e2 =>
    if h : e1 = e2 then Decidable.isTrue (by rw [h]) else Decidable.isFalse (by simp [h])
  | Except.ok v1, Except.ok v2 =>
    if h : v1 = v2 then Decidable.isTrue (by rw [h]) else Decidable.isFalse (by simp [h])
  | Except.error _, Except.ok _ => Decidable.isFalse (by simp)
  | Except.ok _, Except.error _ => Decidable.isFalse (by simp)

/-- Infer the default health check port: only possible when the mapping list has
exactly one entry, in which case it is that mapping's container port
(webservice.py lines 210-215). -/
def inferHealthCheckPort (port_mappings : List PortMapping) : Except InitError Int :=
  match port_mappings with
  | [pm] => Except.ok pm.container_port
  | _ => Except.error (InitError.assertionError
      "health_check_port is unset; a default value could not be inferred because load_balancer_to_container_port_mappings has more than one mapping.")

/-- Resolve the health check port as webservice.py lines 209-215: the source
guards with Python `if not health_check_port`, which treats both None and an
explicit 0 as unset. -/
def resolveHealthCheckPort (health_check_port : Option Int)
    (port_mappings : List PortMapping) : Except InitError Int :=
  match health_check_port with
  | some p => if p == 0 then inferHealthCheckPort port_mappings else Except.ok p
  | none => inferHealthCheckPort port_mappings

/-- The validation assertions at the head of Webservice.__init__
(webservice.py lines 201-218), in source order, returning the resolved health
check port on success. -/
def validateWebserviceProps (s : WebserviceProps) : Except InitError Int :=
  if objTruthy s.docker_image && strTruthy s.docker_build_context then
    Except.error (InitError.assertionError "docker_image and docker_build_context cannot both be set")
  else if objTruthy s.docker_image && dictTruthy s.docker_build_args then
    Except.error (InitError.assertionError "docker_image and docker_build_args cannot both be set")
  else if objTruthy s.docker_image && strTruthy s.relative_dockerfile_path then
    Except.error (InitError.assertionError "docker_image and dockerfile_path cannot both be set")
  else if strTruthy s.vpc_id && objTruthy s.ecs_cluster_in_vpc then
    Except.error (InitError.assertionError "vpc_id and ecs_cluster_in_vpc cannot both be set; the vpc associated with the cluster will be used when ecs_cluster_in_vpc is set")
  else
    match resolveHealthCheckPort s.health_check_port s.load_balancer_to_container_port_mappings with
    | Except.error e => Except.error e
    | Except.ok hc =>
      if PortMapping.do_port_mappings_conflict s.load_balancer_to_container_port_mappings then
        Except.error (InitError.assertionError
          "Conflicting port mappings appear in load_balancer_to_container_port_mappings; is the same listener port listed more than once?")
      else Except.ok hc

/-- The scope that a CDK construct is created in.  Webservice.__init__ creates most
constructs with scope=self (the Webservice construct), the container definition
inside the task definition, the target groups with scope=scope (the PARENT of the
Webservice construct, line 249), and the scaling policies under the scalable
target. -/
inductive Scope where
  | parent
  | self
  | taskDef
  | scalableTarget
deriving DecidableEq

/-- Which scaling metric a policy reacts to. -/
inductive ScalingMetric where
  | cpu
  | memory
deriving DecidableEq

/-- One target-tracking scaling policy attached to the scalable target.  The CDK
calls scale_on_cpu_utilization / scale_on_memory_utilization accept optional
scale_in_cooldown / scale_out_cooldown arguments (modelled in seconds). -/
structure ScalingPolicy where
  id : String
  metric : ScalingMetric
  target_utilization_percent : Int
  scale_in_cooldown : Option Int
  scale_out_cooldown : Option Int
deriving DecidableEq

/-- The scalable target produced by service.auto_scale_task_count together with
the policies attached to it. -/
structure ScalableTarget where
  min_capacity : Int
  max_capacity : Int
  policies : List ScalingPolicy
deriving DecidableEq

/-- configure_ecs_service_auto_scaling (webservice.py lines 351-372): one scalable
target bounded by [min_tasks, max_tasks]; a CPU policy that receives the caller's
cooldown values (the source computes `x and cdk.Duration.seconds(x)`, i.e. the
optional seconds value is forwarded as given); and a memory policy created with no
cooldown arguments at all. -/
def configure_ecs_service_auto_scaling (id_pre : String) (min_tasks max_tasks : Int)
    (target_cpu_utilization_percent target_memory_utilization_percent : Int)
    (scale_in_cooldown_seconds scale_out_cooldown_seconds : Option Int) : ScalableTarget :=
  { min_capacity := min_tasks
    max_capacity := max_tasks
    policies := [
      { id := id_pre ++ "CpuScaling"
        metric := ScalingMetric.cpu
        target_utilization_percent := target_cpu_utilization_percent
        scale_in_cooldown := scale_in_cooldown_seconds
        scale_out_cooldown := scale_out_cooldown_seconds },
      { id := id_pre ++ "MemoryScaling"
        metric := ScalingMetric.memory
        target_utilization_percent := target_memory_utilization_percent
        scale_in_cooldown := none
        scale_out_cooldown := none } ] }

/-- Modelled from the spec: the external autoscaling engine (AWS Application Auto
Scaling, not code of this repository) applies a scale action by moving the replica
count to the requested value clamped into the scalable target's bounds: growth
moves up to but not past max_capacity, shrink moves down to but not past
min_capacity. -/
def applyScaleAction (t : ScalableTarget) (requested : Int) : Int :=
  max t.min_capacity (min t.max_capacity requested)

/-- The kind of CDK construct created during Webservice.__init__, carrying the
configuration that the routing claims are about. -/
inductive ResourceKind where
  | logGroup
  | vpc
  | loadBalancer
  | cluster
  | taskDefinition
  | containerDefinition
  | managedPolicy
  | targetGroup (port : Int) (health_check_port : Int) (health_check_path : String)
  | ecsService
  | scalingPolicy (policy : ScalingPolicy)
  | listener (port : Int)
  | listenerRule (path_pattern : String) (target_container_port : Int)
  | cfnOutput
deriving DecidableEq

/-- One CDK construct: its scope, its construct id, and its configuration. -/
structure Resource where
  scope : Scope
  id : String
  kind : ResourceKind
deriving DecidableEq

/-- Trace of an invocation of Webservice.__init__: the constructs created so far
(in creation order) and the first error hit, if any.  Once err is set no further
constructs are created (the Python invocation raises at that point). -/
structure BuildState where
  resources : List Resource
  err : Option InitError
deriving DecidableEq

/-- Create one CDK construct.  The constructs library refuses a second construct
whose id equals that of an existing construct in the same scope; a construct that
violates this aborts the invocation with a duplicate-id error. -/
def emit (st : BuildState) (r : Resource) : BuildState :=
  match st.err with
  | some _ => st
  | none =>
    if st.resources.any (fun r0 => r0.scope == r.scope && r0.id == r.id) then
      { resources := st.resources, err := some (InitError.duplicateConstructId r.id) }
    else
      { resources := st.resources ++ [r], err := none }

/-- Abort the invocation with an error (no construct created). -/
def failWith (st : BuildState) (e : InitError) : BuildState :=
  match st.err with
  | some _ => st
  | none => { resources := st.resources, err := some e }

/-- create_or_lookup_vpc (webservice.py lines 536-554): whether the vpc is looked
up from vpc_id or newly created, exactly one construct with id id_pre ++ "Vpc" is
added to the given scope. -/
def create_or_lookup_vpc (scope : Scope) (id_pre : String) : Resource :=
  { scope := scope, id := id_pre ++ "Vpc", kind := ResourceKind.vpc }

/-- make_target_group (webservice.py lines 454-477): every call creates an
ApplicationTargetGroup with the FIXED construct id id_pre ++ "TargetGroup" in the
given scope, for the given container port, health-checked at the resolved health
check port and path. -/
def make_target_group (scope : Scope) (id_pre : String) (health_check_port : Int)
    (health_check_path : String) (port : Int) : Resource :=
  { scope := scope
    id := id_pre ++ "TargetGroup"
    kind := ResourceKind.targetGroup port health_check_port health_check_path }

/-- make_container_port_to_target_group_mapping (webservice.py lines 433-451): the
source is a dict comprehension over container_ports, so make_target_group is
invoked once per ELEMENT of the container port list (duplicates included); the
resulting dict then keeps one entry per distinct port. -/
def make_container_port_to_target_group_mapping (scope : Scope) (id_pre : String)
    (health_check_port : Int) (health_check_path : String)
    (container_ports : List Int) (st : BuildState) : BuildState :=
  container_ports.foldl
    (fun st2 port => emit st2 (make_target_group scope id_pre health_check_port health_check_path port))
    st

/-- make_webservice_task_definition (webservice.py lines 301-347, with
make_task_definition lines 399-430 and _configure_ecs_task_execution_role lines
375-396).  The image is `docker_image or ContainerImage.from_asset(directory =
docker_build_context and str(docker_build_context), ...)`: when docker_image is
absent and docker_build_context is None, from_asset receives directory=None and
fails on the jsii boundary before any task-definition construct is created. -/
def make_webservice_task_definition (s : WebserviceProps) (st : BuildState) : BuildState :=
  let id_pre := s.construct_id
  let st :=
    if s.docker_image.isSome then st
    else if s.docker_build_context.isNone then failWith st InitError.imageResolutionError
    else st
  let st := emit st { scope := Scope.self, id := id_pre ++ "TaskDefinition", kind := ResourceKind.taskDefinition }
  let st := emit st { scope := Scope.taskDef, id := id_pre ++ "ContainerDefinition", kind := ResourceKind.containerDefinition }
  let st := emit st { scope := Scope.self, id := id_pre ++ "-fargate-execution-role-ecr-policy", kind := ResourceKind.managedPolicy }
  emit st { scope := Scope.self, id := id_pre ++ "-fargate-execution-role-ecs-policy", kind := ResourceKind.managedPolicy }

/-- make_service (webservice.py lines 480-533): one FargateService construct with
id id_pre ++ "EcsService"; attaching target groups creates no construct. -/
def make_service (id_pre : String) (st : BuildState) : BuildState :=
  emit st { scope := Scope.self, id := id_pre ++ "EcsService", kind := ResourceKind.ecsService }

/-- The scaling policy constructs created by configure_ecs_service_auto_scaling,
under the scalable target's scope. -/
def emit_scaling_policies (t : ScalableTarget) (st : BuildState) : BuildState :=
  t.policies.foldl
    (fun st2 pol => emit st2 { scope := Scope.scalableTarget, id := pol.id, kind := ResourceKind.scalingPolicy pol })
    st

/-- service.auto_scale_task_count (webservice.py line 362) constructs an
applicationautoscaling ScalableTarget; in the pinned aws-cdk 2.45.0 its
constructor validates the capacity bounds before anything else and raises
RangeError when maxCapacity is negative, when minCapacity is negative, or when
maxCapacity < minCapacity (scalable-target.ts). -/
def scalable_target_capacity_check (t : ScalableTarget) (st : BuildState) : BuildState :=
  if t.max_capacity < 0 then
    failWith st (InitError.rangeError "maxCapacity cannot be negative")
  else if t.min_capacity < 0 then
    failWith st (InitError.rangeError "minCapacity cannot be negative")
  else if t.max_capacity < t.min_capacity then
    failWith st (InitError.rangeError "minCapacity should be lower than maxCapacity")
  else st

/-- make_load_balancer_listener (webservice.py lines 585-629): every call creates
an ApplicationListener with the FIXED construct id id_pre ++ "Listener" and an
ApplicationListenerRule with the FIXED construct id id_pre ++ "ListenerRule",
forwarding the mapping's path pattern to the target group keyed by the mapping's
container port. -/
def make_load_balancer_listener (id_pre : String) (pm : PortMapping) (st : BuildState) : BuildState :=
  let st := emit st { scope := Scope.self, id := id_pre ++ "Listener", kind := ResourceKind.listener pm.listener_port }
  emit st { scope := Scope.self, id := id_pre ++ "ListenerRule", kind := ResourceKind.listenerRule pm.path_pattern pm.container_port }

/-- make_load_balancer_listeners (webservice.py lines 556-582): one listener (and
rule) per port mapping, in mapping-list order. -/
def make_load_balancer_listeners (id_pre : String) (port_mappings : List PortMapping)
    (st : BuildState) : BuildState :=
  port_mappings.foldl (fun st2 pm => make_load_balancer_listener id_pre pm st2) st

/-- The construction section of Webservice.__init__ (webservice.py lines 220-286),
run after validation succeeded with the resolved health check port. -/
def constructPhase (s : WebserviceProps) (health_check_port : Int) : BuildState :=
  let id_pre := s.construct_id
  let st : BuildState := { resources := [], err := none }
  -- line 220: log_group = logs.LogGroup(self, id="LogGroup")
  let st := emit st { scope := Scope.self, id := "LogGroup", kind := ResourceKind.logGroup }
  -- line 221: vpc from the supplied cluster, or create_or_lookup_vpc(scope=self, ...)
  let st := if s.ecs_cluster_in_vpc.isSome then st
    else emit st (create_or_lookup_vpc Scope.self id_pre)
  -- lines 222-227: self.load_balancer = load_balancer or ApplicationLoadBalancer(self, construct_id + "ALB", ...)
  let st := if s.load_balancer.isSome then st
    else emit st { scope := Scope.self, id := id_pre ++ "ALB", kind := ResourceKind.loadBalancer }
  -- line 229: self.ecs_cluster = ecs_cluster_in_vpc or ecs.Cluster(self, construct_id + "-Cluster", ...)
  let st := if s.ecs_cluster_in_vpc.isSome then st
    else emit st { scope := Scope.self, id := id_pre ++ "-Cluster", kind := ResourceKind.cluster }
  -- lines 231-244
  let st := make_webservice_task_definition s st
  -- lines 246-255 (note scope=scope, the parent of the Webservice construct)
  let st := make_container_port_to_target_group_mapping Scope.parent id_pre health_check_port
    s.health_check_path (PortMapping.list_container_ports s.load_balancer_to_container_port_mappings) st
  -- lines 257-265
  let st := make_service id_pre st
  -- lines 267-276 (auto_scale_task_count validates the capacity bounds first,
  -- then the two scaling policies are attached)
  let tgt := configure_ecs_service_auto_scaling id_pre s.min_tasks s.max_tasks
    s.target_cpu_utilization_percent s.target_memory_utilization_percent
    s.scale_in_cooldown_seconds s.scale_out_cooldown_seconds
  let st := scalable_target_capacity_check tgt st
  let st := emit_scaling_policies tgt st
  -- lines 278-284
  let st := make_load_balancer_listeners id_pre s.load_balancer_to_container_port_mappings st
  -- line 286: self.make_output("LoadBalancerUrl", ...)
  emit st { scope := Scope.self, id := "LoadBalancerUrl", kind := ResourceKind.cfnOutput }

/-- A full invocation of Webservice.__init__: the validation assertions (which
construct nothing), then the construction sequence. -/
def runInit (s : WebserviceProps) : BuildState :=
  match validateWebserviceProps s with
  | Except.error e => { resources := [], err := some e }
  | Except.ok hc => constructPhase s hc

/-- Whether a construct in the trace is a load balancer target group. -/
def isTargetGroupRes (r : Resource) : Bool :=
  match r.kind with
  | ResourceKind.targetGroup _ _ _ => true
  | _ => false

/-- Whether a construct in the trace is a load balancer listener. -/
def isListenerRes (r : Resource) : Bool :=
  match r.kind with
  | ResourceKind.listener _ => true
  | _ => false

/-- Whether an invocation outcome is a duplicate-construct-id failure. -/
def isDuplicateIdErr : Option InitError → Bool
  | some (InitError.duplicateConstructId _) => true
  | _ => false

/-- Whether an invocation outcome is a RangeError from the external
ScalableTarget capacity validation. -/
def isRangeErr : Option InitError → Bool
  | some (InitError.rangeError _) => true
  | _ => false

section HelperLemmas

theorem string_append_left_cancel (p a b : String) (h : p ++ a = p ++ b) : a = b := by
  have hd : p.data ++ a.data = p.data ++ b.data := by
    have := congrArg String.data h
    simpa [String.data_append] using this
  exact String.ext (List.append_cancel_left hd)

theorem append_data_getLast (p x : String) (c : Char) (h : x.data.getLast? = some c) :
    (p ++ x).data.getLast? = some c := by
  rw [String.data_append]
  rw [List.getLast?_append_of_ne_nil]
  · exact h
  · intro hnil; rw [hnil] at h; simp at h

theorem ne_append_of_last_ne (y p x : String) (cy cx : Char)
    (hy : y.data.getLast? = some cy) (hx : x.data.getLast? = some cx) (hne : cy ≠ cx) :
    y ≠ p ++ x := by
  intro h
  rw [h, append_data_getLast p x cx hx] at hy
  injection hy with h2
  exact hne h2.symm

@[simp] theorem append_beq_append (p x y : String) : (p ++ x == p ++ y) = (x == y) := by
  by_cases h : x = y
  · subst h; simp
  · have h2 : p ++ x ≠ p ++ y := fun heq => h (string_append_left_cancel p x y heq)
    simp [h, h2]

theorem logGroup_ne_append (p x : String) (cx : Char)
    (hx : x.data.getLast? = some cx) (h : Ne 'p' cx) : ("LogGroup" : String) ≠ p ++ x :=
  ne_append_of_last_ne "LogGroup" p x 'p' cx (by decide) hx h

@[simp] theorem logGroup_beq_vpc (p : String) : (("LogGroup" : String) == p ++ "Vpc") = false := by
  simp [logGroup_ne_append p "Vpc" 'c' (by decide) (by decide)]

@[simp] theorem logGroup_beq_alb (p : String) : (("LogGroup" : String) == p ++ "ALB") = false := by
  simp [logGroup_ne_append p "ALB" 'B' (by decide) (by decide)]

@[simp] theorem logGroup_beq_cluster (p : String) : (("LogGroup" : String) == p ++ "-Cluster") = false := by
  simp [logGroup_ne_append p "-Cluster" 'r' (by decide) (by decide)]

@[simp] theorem logGroup_beq_taskdef (p : String) : (("LogGroup" : String) == p ++ "TaskDefinition") = false := by
  simp [logGroup_ne_append p "TaskDefinition" 'n' (by decide) (by decide)]

@[simp] theorem logGroup_beq_ecr_policy (p : String) :
    (("LogGroup" : String) == p ++ "-fargate-execution-role-ecr-policy") = false := by
  simp [logGroup_ne_append p "-fargate-execution-role-ecr-policy" 'y' (by decide) (by decide)]

@[simp] theorem logGroup_beq_ecs_policy (p : String) :
    (("LogGroup" : String) == p ++ "-fargate-execution-role-ecs-policy") = false := by
  simp [logGroup_ne_append p "-fargate-execution-role-ecs-policy" 'y' (by decide) (by decide)]

@[simp] theorem emit_stuck (rs : List Resource) (e : InitError) (r : Resource) :
    emit { resources := rs, err := some e } r = { resources := rs, err := some e } := rfl

@[simp] theorem failWith_stuck (rs : List Resource) (e e2 : InitError) :
    failWith { resources := rs, err := some e } e2 = { resources := rs, err := some e } := rfl

@[simp] theorem make_container_port_to_target_group_mapping_stuck (scope : Scope)
    (id_pre : String) (hc : Int) (path : String) (ports : List Int)
    (rs : List Resource) (e : InitError) :
    make_container_port_to_target_group_mapping scope id_pre hc path ports
      { resources := rs, err := some e } = { resources := rs, err := some e } := by
  induction ports with
  | nil => rfl
  | cons a t ih =>
    unfold make_container_port_to_target_group_mapping at ih ⊢
    rw [List.foldl_cons, emit_stuck, ih]

@[simp] theorem make_load_balancer_listener_stuck (id_pre : String) (pm : PortMapping)
    (rs : List Resource) (e : InitError) :
    make_load_balancer_listener id_pre pm { resources := rs, err := some e }
      = { resources := rs, err := some e } := rfl

@[simp] theorem make_load_balancer_listeners_stuck (id_pre : String) (pms : List PortMapping)
    (rs : List Resource) (e : InitError) :
    make_load_balancer_listeners id_pre pms { resources := rs, err := some e }
      = { resources := rs, err := some e } := by
  induction pms with
  | nil => rfl
  | cons a t ih =>
    unfold make_load_balancer_listeners at ih ⊢
    rw [List.foldl_cons, make_load_balancer_listener_stuck, ih]

@[simp] theorem make_service_stuck (id_pre : String) (rs : List Resource) (e : InitError) :
    make_service id_pre { resources := rs, err := some e } = { resources := rs, err := some e } := rfl

@[simp] theorem emit_scaling_policies_stuck (t : ScalableTarget) (rs : List Resource) (e : InitError) :
    emit_scaling_policies t { resources := rs, err := some e } = { resources := rs, err := some e } := by
  unfold emit_scaling_policies
  induction t.policies with
  | nil => rfl
  | cons a l ih => rw [List.foldl_cons, emit_stuck, ih]

@[simp] theorem scalable_target_capacity_check_stuck (t : ScalableTarget)
    (rs : List Resource) (e : InitError) :
    scalable_target_capacity_check t { resources := rs, err := some e }
      = { resources := rs, err := some e } := by
  unfold scalable_target_capacity_check
  split_ifs <;> simp

@[simp] theorem make_webservice_task_definition_stuck (s : WebserviceProps)
    (rs : List Resource) (e : InitError) :
    make_webservice_task_definition s { resources := rs, err := some e }
      = { resources := rs, err := some e } := by
  unfold make_webservice_task_definition
  by_cases h1 : s.docker_image.isSome
  · simp [h1]
  · by_cases h2 : s.docker_build_context.isNone
    · simp [h1, h2]
    · simp [h1, h2]

@[simp] theorem foldl_emit_stuck {α : Type} (g : α → Resource) (l : List α)
    (rs : List Resource) (e : InitError) :
    List.foldl (fun st2 x => emit st2 (g x)) { resources := rs, err := some e } l
      = { resources := rs, err := some e } := by
  induction l with
  | nil => rfl
  | cons a t ih => rw [List.foldl_cons, emit_stuck, ih]

@[simp] theorem emit_none (rs : List Resource) (r : Resource) :
    emit { resources := rs, err := none } r
      = if rs.any (fun r0 => r0.scope == r.scope && r0.id == r.id) then
          { resources := rs, err := some (InitError.duplicateConstructId r.id) }
        else
          { resources := rs ++ [r], err := none } := rfl

theorem infer_error_shape (pms : List PortMapping) (e : InitError)
    (h : inferHealthCheckPort pms = Except.error e) : ∃ m, e = InitError.assertionError m := by
  unfold inferHealthCheckPort at h
  split at h
  · exact absurd h (by simp)
  · injection h with h2
    exact ⟨_, h2.symm⟩

theorem resolve_error_shape (hcp : Option Int) (pms : List PortMapping) (e : InitError)
    (h : resolveHealthCheckPort hcp pms = Except.error e) : ∃ m, e = InitError.assertionError m := by
  unfold resolveHealthCheckPort at h
  cases hcp with
  | none => exact infer_error_shape pms e h
  | some p =>
    dsimp only at h
    by_cases hp : (p == 0) = true
    · rw [if_pos hp] at h
      exact infer_error_shape pms e h
    · rw [if_neg (by simpa using hp)] at h
      exact absurd h (by simp)

theorem validate_error_shape (s : WebserviceProps) (e : InitError)
    (h : validateWebserviceProps s = Except.error e) : ∃ m, e = InitError.assertionError m := by
  unfold validateWebserviceProps at h
  repeat' split at h
  all_goals first
    | (injection h with h2; exact ⟨_, h2.symm⟩)
    | (rename_i e' heq
       injection h with h2
       exact h2 ▸ resolve_error_shape _ _ _ heq)
    | (exact absurd h (by simp))

theorem runInit_of_validate_error (s : WebserviceProps) (e : InitError)
    (h : validateWebserviceProps s = Except.error e) :
    runInit s = { resources := [], err := some e } := by
  unfold runInit
  rw [h]

theorem conflict_eq_false_iff_nodup (pms : List PortMapping) :
    PortMapping.do_port_mappings_conflict pms = false ↔
      (PortMapping.list_listener_ports pms).Nodup := by
  unfold PortMapping.do_port_mappings_conflict PortMapping.list_listener_ports
  rw [List.any_eq_false, List.nodup_iff_count_le_one]
  constructor
  · intro h a
    by_cases ha : a ∈ pms.map (fun pm => pm.listener_port)
    · have := h a ha
      simp only [decide_eq_true_eq] at this
      omega
    · rw [List.count_eq_zero_of_not_mem ha]
      omega
  · intro h x hx
    simp only [decide_eq_true_eq]
    have := h x
    omega

theorem validate_error_of_conflict (s : WebserviceProps)
    (h : PortMapping.do_port_mappings_conflict s.load_balancer_to_container_port_mappings = true) :
    ∃ m, validateWebserviceProps s = Except.error (InitError.assertionError m) := by
  unfold validateWebserviceProps
  repeat' split
  all_goals first
    | exact ⟨_, rfl⟩
    | (rename_i e' heq
       obtain ⟨m, rfl⟩ := resolve_error_shape _ _ _ heq
       exact ⟨m, rfl⟩)
    | simp_all

theorem single_mapping_no_conflict (pm : PortMapping) :
    PortMapping.do_port_mappings_conflict [pm] = false := by
  simp [PortMapping.do_port_mappings_conflict]

theorem resolve_eq_infer_of_falsy (hcp : Option Int) (pms : List PortMapping)
    (h : intTruthy hcp = false) :
    resolveHealthCheckPort hcp pms = inferHealthCheckPort pms := by
  cases hcp with
  | none => rfl
  | some p =>
    unfold intTruthy at h
    simp only [Bool.not_eq_false'] at h
    simp [resolveHealthCheckPort, h]

theorem infer_error_of_not_single (pms : List PortMapping) (h : pms.length ≠ 1) :
    ∃ m, inferHealthCheckPort pms = Except.error (InitError.assertionError m) := by
  match pms with
  | [] => exact ⟨_, rfl⟩
  | [pm] => simp at h
  | a :: b :: t => exact ⟨_, rfl⟩

theorem validate_error_of_falsy_hc_not_single (s : WebserviceProps)
    (h1 : intTruthy s.health_check_port = false)
    (h2 : s.load_balancer_to_container_port_mappings.length ≠ 1) :
    ∃ m, validateWebserviceProps s = Except.error (InitError.assertionError m) := by
  obtain ⟨m0, hres0⟩ := infer_error_of_not_single s.load_balancer_to_container_port_mappings h2
  have hres : resolveHealthCheckPort s.health_check_port s.load_balancer_to_container_port_mappings
      = Except.error (InitError.assertionError m0) := by
    rw [resolve_eq_infer_of_falsy _ _ h1, hres0]
  unfold validateWebserviceProps
  repeat' split
  all_goals first
    | exact ⟨_, rfl⟩
    | (rename_i e' heq
       obtain ⟨m, rfl⟩ := resolve_error_shape _ _ _ heq
       exact ⟨m, rfl⟩)
    | simp_all

theorem validate_ok_single_inversion (s : WebserviceProps) (pm : PortMapping) (hc : Int)
    (habsent : s.health_check_port = none)
    (hmap : s.load_balancer_to_container_port_mappings = [pm])
    (hok : validateWebserviceProps s = Except.ok hc) :
    hc = pm.container_port := by
  have hres : resolveHealthCheckPort s.health_check_port s.load_balancer_to_container_port_mappings
      = Except.ok pm.container_port := by
    rw [habsent, hmap]
    rfl
  unfold validateWebserviceProps at hok
  repeat' split at hok
  all_goals simp_all

end HelperLemmas

/-
Concrete service specifications used to evaluate the embedded code at specific
inputs.  Fields not listed keep the source defaults of Webservice.__init__.
-/

/-- The spec of the C1 scenario: two mappings 80 -> 3000 and 8080 -> 3000, an
explicit health check port (required to pass validation with two mappings), and a
registry image. -/
def c1FailingSpec : WebserviceProps :=
  { construct_id := "svc"
    load_balancer_to_container_port_mappings :=
      [{ listener_port := 80, container_port := 3000, path_pattern := "/" },
       { listener_port := 8080, container_port := 3000, path_pattern := "/" }]
    health_check_path := "/"
    health_check_port := some 3000
    docker_image := some () }

/-- A spec with pairwise-distinct listener ports. -/
def c2DistinctSpec : WebserviceProps :=
  { construct_id := "svc"
    load_balancer_to_container_port_mappings :=
      [{ listener_port := 80, container_port := 3000 },
       { listener_port := 8080, container_port := 4000 }]
    health_check_path := "/"
    health_check_port := some 3000
    docker_image := some () }

/-- The duplicate-listener-port spec from the testable properties: listener port 80
appears in two mappings. -/
def c2DupSpec : WebserviceProps :=
  { construct_id := "svc"
    load_balancer_to_container_port_mappings :=
      [{ listener_port := 80, container_port := 3000, path_pattern := "/api/*" },
       { listener_port := 80, container_port := 4000, path_pattern := "/" }]
    health_check_path := "/"
    health_check_port := some 3000
    docker_image := some () }

/-- One mapping, no explicit health check port. -/
def c3OneSpec : WebserviceProps :=
  { construct_id := "svc"
    load_balancer_to_container_port_mappings :=
      [{ listener_port := 80, container_port := 3000 }]
    health_check_path := "/"
    docker_image := some () }

/-- Two mappings, no explicit health check port. -/
def c3TwoSpec : WebserviceProps :=
  { construct_id := "svc"
    load_balancer_to_container_port_mappings :=
      [{ listener_port := 80, container_port := 3000 },
       { listener_port := 8080, container_port := 4000 }]
    health_check_path := "/"
    docker_image := some () }

/-- Invalid replica bounds: min_tasks > max_tasks and max_tasks negative. -/
def c4BadBoundsSpec : WebserviceProps :=
  { construct_id := "svc"
    load_balancer_to_container_port_mappings :=
      [{ listener_port := 80, container_port := 3000 }]
    health_check_path := "/"
    min_tasks := 5
    max_tasks := -1
    docker_image := some () }

/-- A spec whose image source is neither a registry reference nor a local build
descriptor. -/
def c5NeitherSpec : WebserviceProps :=
  { construct_id := "svc"
    load_balancer_to_container_port_mappings :=
      [{ listener_port := 80, container_port := 3000 }]
    health_check_path := "/" }

/-- A spec whose image source is both a registry reference and a local build
descriptor. -/
def c5BothSpec : WebserviceProps :=
  { construct_id := "svc"
    load_balancer_to_container_port_mappings :=
      [{ listener_port := 80, container_port := 3000 }]
    health_check_path := "/"
    docker_build_context := some "./app"
    docker_image := some () }

/-- Zero port mappings but an explicit health check port. -/
def c6EmptyWithPortSpec : WebserviceProps :=
  { construct_id := "svc"
    load_balancer_to_container_port_mappings := []
    health_check_path := "/"
    health_check_port := some 8080
    docker_image := some () }

/-- Zero port mappings and no explicit health check port. -/
def c6EmptyNoPortSpec : WebserviceProps :=
  { construct_id := "svc"
    load_balancer_to_container_port_mappings := []
    health_check_path := "/"
    docker_image := some () }

/-- Both an existing cluster reference and a raw vpc id are supplied (this is in
fact what UIBackendService.__init__ in ui/ecs.py always does, lines 130 and 138). -/
def c7BothSpec : WebserviceProps :=
  { construct_id := "svc"
    load_balancer_to_container_port_mappings :=
      [{ listener_port := 80, container_port := 3000 }]
    health_check_path := "/"
    vpc_id := some "vpc-123"
    ecs_cluster_in_vpc := some () }

/-- A validated two-mapping spec with no image source at all: validation passes
but construction dies at image resolution, before the routing stage. -/
def c9NoImageSpec : WebserviceProps :=
  { construct_id := "svc"
    load_balancer_to_container_port_mappings :=
      [{ listener_port := 80, container_port := 3000, path_pattern := "/" },
       { listener_port := 8080, container_port := 4000, path_pattern := "/" }]
    health_check_path := "/"
    health_check_port := some 3000 }

/-- A validated two-mapping spec with distinct container ports and a registry
image. -/
def c9WitnessSpec : WebserviceProps :=
  { construct_id := "svc"
    load_balancer_to_container_port_mappings :=
      [{ listener_port := 80, container_port := 3000, path_pattern := "/" },
       { listener_port := 8080, container_port := 4000, path_pattern := "/" }]
    health_check_path := "/"
    health_check_port := some 3000
    docker_image := some () }

/-
The claim theorems.
-/

/-- C1: evaluation of the code at the spec's own example.  For the validated spec
with mappings [{80,3000,"/"}, {8080,3000,"/"}], the routing code does NOT produce
one TargetGroup and two Listeners: make_target_group is invoked once per mapping
element, always with construct id "svcTargetGroup", so the second invocation hits
the duplicate-construct-id rule; the invocation aborts with exactly one
TargetGroup construct in the trace and no Listener at all. -/
theorem c1_routing_compiler_duplicate_id_failure :
    validateWebserviceProps c1FailingSpec = Except.ok 3000
    ∧ (runInit c1FailingSpec).err = some (InitError.duplicateConstructId "svcTargetGroup")
    ∧ ((runInit c1FailingSpec).resources.filter isTargetGroupRes).length = 1
    ∧ ((runInit c1FailingSpec).resources.filter isListenerRes).length = 0 := by decide

/-- C2: a spec whose listener ports are pairwise distinct passes the
listener-port conflict check, and a spec with a repeated listener port fails
validation with an assertion (the spec's ConfigurationError) while the
construction trace is still empty: no TargetGroup or Listener exists. -/
theorem c2_listener_port_validation (s : WebserviceProps) :
    ((PortMapping.list_listener_ports s.load_balancer_to_container_port_mappings).Nodup →
      PortMapping.do_port_mappings_conflict s.load_balancer_to_container_port_mappings = false)
    ∧ (¬ (PortMapping.list_listener_ports s.load_balancer_to_container_port_mappings).Nodup →
      PortMapping.do_port_mappings_conflict s.load_balancer_to_container_port_mappings = true
      ∧ (∃ m, (runInit s).err = some (InitError.assertionError m))
      ∧ (runInit s).resources = []) := by
  constructor
  · intro h
    exact (conflict_eq_false_iff_nodup _).mpr h
  · intro h
    have hconf : PortMapping.do_port_mappings_conflict
        s.load_balancer_to_container_port_mappings = true := by
      by_cases hb : PortMapping.do_port_mappings_conflict
          s.load_balancer_to_container_port_mappings = true
      · exact hb
      · have hf : PortMapping.do_port_mappings_conflict
            s.load_balancer_to_container_port_mappings = false := by
          simpa using hb
        exact absurd ((conflict_eq_false_iff_nodup _).mp hf) h
    obtain ⟨m, hm⟩ := validate_error_of_conflict s hconf
    refine ⟨hconf, ⟨m, ?_⟩, ?_⟩
    · rw [runInit_of_validate_error s _ hm]
    · rw [runInit_of_validate_error s _ hm]

/-- Witness for C2 at the spec's example inputs. -/
theorem c2_listener_port_validation_witness :
    PortMapping.do_port_mappings_conflict c2DistinctSpec.load_balancer_to_container_port_mappings = false
    ∧ (PortMapping.do_port_mappings_conflict c2DupSpec.load_balancer_to_container_port_mappings = true
       ∧ (∃ m, (runInit c2DupSpec).err = some (InitError.assertionError m))
       ∧ (runInit c2DupSpec).resources = []) :=
  ⟨(c2_listener_port_validation c2DistinctSpec).1 (by decide),
   (c2_listener_port_validation c2DupSpec).2 (by decide)⟩

/-- C3: with no explicit health check port, a single-mapping spec resolves the
health check port to that mapping's container port, and a spec with more than
one mapping fails validation with an assertion (the spec's ConfigurationError). -/
theorem c3_health_check_port_inference (s : WebserviceProps)
    (habsent : s.health_check_port = none) :
    (∀ pm : PortMapping, s.load_balancer_to_container_port_mappings = [pm] →
      ∀ hc : Int, validateWebserviceProps s = Except.ok hc → hc = pm.container_port)
    ∧ (1 < s.load_balancer_to_container_port_mappings.length →
      ∃ m, validateWebserviceProps s = Except.error (InitError.assertionError m)) := by
  constructor
  · intro pm hmap hc hok
    exact validate_ok_single_inversion s pm hc habsent hmap hok
  · intro hlen
    refine validate_error_of_falsy_hc_not_single s ?_ ?_
    · rw [habsent]; rfl
    · omega

/-- Witness for C3 at one-mapping and two-mapping specs. -/
theorem c3_health_check_port_inference_witness :
    ((3000 : Int) = ({ listener_port := 80, container_port := 3000 } : PortMapping).container_port)
    ∧ (∃ m, validateWebserviceProps c3TwoSpec = Except.error (InitError.assertionError m)) :=
  ⟨(c3_health_check_port_inference c3OneSpec rfl).1
      { listener_port := 80, container_port := 3000 } rfl 3000 (by decide),
   (c3_health_check_port_inference c3TwoSpec rfl).2 (by decide)⟩

/-- C4 counterexample: a spec with min_tasks = 5 > max_tasks = -1 (negative as
well) passes the input validator, contradicting the claim that the validator
fails with ConfigurationError on such bounds.  The bounds are first rejected
much later, by the external ScalableTarget capacity validation inside
auto_scale_task_count (a RangeError, not the input validator), at which point
the target group and service constructs already exist in the trace. -/
theorem c4_replica_bounds_counterexample :
    c4BadBoundsSpec.max_tasks < c4BadBoundsSpec.min_tasks
    ∧ c4BadBoundsSpec.max_tasks < 0
    ∧ validateWebserviceProps c4BadBoundsSpec = Except.ok 3000
    ∧ isRangeErr (runInit c4BadBoundsSpec).err = true
    ∧ ((runInit c4BadBoundsSpec).resources.filter isTargetGroupRes).length = 1
    ∧ ((runInit c4BadBoundsSpec).resources.filter
        (fun r => r.kind == ResourceKind.ecsService)).length = 1 := by decide

/-- C4 amended: the input validator performs no check at all on the replica
bounds; its outcome is unchanged under any replacement of min_tasks and
max_tasks. -/
theorem c4_validator_ignores_replica_bounds (s : WebserviceProps) (a b c d : Int) :
    validateWebserviceProps { s with min_tasks := a, max_tasks := b }
      = validateWebserviceProps { s with min_tasks := c, max_tasks := d } := rfl

/-- C5 counterexample: a spec whose image source is neither a registry reference
nor a local build descriptor passes the input validator, contradicting the
claim that it fails with ConfigurationError. -/
theorem c5_neither_image_source_counterexample :
    c5NeitherSpec.docker_image = none
    ∧ c5NeitherSpec.docker_build_context = none
    ∧ validateWebserviceProps c5NeitherSpec = Except.ok 3000 := by decide

/-- C5 amended: if the image source is both a registry reference and a local
build descriptor the validator fails with the corresponding assertion; if it is
neither, validation passes and the defect only surfaces afterwards, as an
image-resolution failure during task-definition construction. -/
theorem c5_image_source_validation_amended (s : WebserviceProps) :
    (objTruthy s.docker_image = true → strTruthy s.docker_build_context = true →
      validateWebserviceProps s
        = Except.error (InitError.assertionError "docker_image and docker_build_context cannot both be set"))
    ∧ (s.docker_image = none → s.docker_build_context = none →
      ∀ hc : Int, validateWebserviceProps s = Except.ok hc →
        (runInit s).err = some InitError.imageResolutionError) := by
  constructor
  · intro h1 h2
    unfold validateWebserviceProps
    rw [if_pos (by rw [h1, h2]; rfl)]
  · intro himg hctx hc hok
    unfold runInit
    rw [hok]
    unfold constructPhase
    cases hcl : s.ecs_cluster_in_vpc <;> cases hlb : s.load_balancer <;>
      simp [hcl, hlb, create_or_lookup_vpc, make_webservice_task_definition,
        himg, hctx, failWith]

/-- Witness for C5 at a both-sources spec and a neither-source spec. -/
theorem c5_image_source_validation_amended_witness :
    validateWebserviceProps c5BothSpec
      = Except.error (InitError.assertionError "docker_image and docker_build_context cannot both be set")
    ∧ (runInit c5NeitherSpec).err = some InitError.imageResolutionError :=
  ⟨(c5_image_source_validation_amended c5BothSpec).1 (by decide) (by decide),
   (c5_image_source_validation_amended c5NeitherSpec).2 rfl rfl 3000 (by decide)⟩

/-- C6 counterexample: a spec with an empty mapping list and an explicit health
check port passes validation (and the whole invocation even succeeds),
contradicting the claim that every empty-mapping spec fails validation. -/
theorem c6_empty_mappings_counterexample :
    c6EmptyWithPortSpec.load_balancer_to_container_port_mappings = []
    ∧ validateWebserviceProps c6EmptyWithPortSpec = Except.ok 8080
    ∧ (runInit c6EmptyWithPortSpec).err = none := by decide

/-- C6 amended: a spec with zero port mappings fails validation exactly when no
truthy explicit health check port is supplied (the failing check is the
health-check-port inference, not an emptiness check). -/
theorem c6_empty_mappings_amended (s : WebserviceProps)
    (hempty : s.load_balancer_to_container_port_mappings = [])
    (hport : intTruthy s.health_check_port = false) :
    ∃ m, validateWebserviceProps s = Except.error (InitError.assertionError m) := by
  refine validate_error_of_falsy_hc_not_single s hport ?_
  rw [hempty]
  decide

/-- Witness for C6 at the empty-mapping spec without a health check port. -/
theorem c6_empty_mappings_amended_witness :
    ∃ m, validateWebserviceProps c6EmptyNoPortSpec = Except.error (InitError.assertionError m) :=
  c6_empty_mappings_amended c6EmptyNoPortSpec rfl rfl

/-- C7: supplying both a truthy vpc_id and an existing cluster makes the
invocation fail during validation (the spec's ResourceConflictError) with an
empty construction trace, i.e. before any (network, cluster) pair or any other
resource is produced; when the earlier image-source assertions cannot fire the
error is exactly the vpc/cluster mutual-exclusion assertion. -/
theorem c7_network_resolver_conflict (s : WebserviceProps)
    (hv : strTruthy s.vpc_id = true) (hcl : objTruthy s.ecs_cluster_in_vpc = true) :
    (runInit s).resources = []
    ∧ (runInit s).err.isSome = true
    ∧ (s.docker_image = none →
        runInit s = BuildState.mk []
          (some (InitError.assertionError "vpc_id and ecs_cluster_in_vpc cannot both be set; the vpc associated with the cluster will be used when ecs_cluster_in_vpc is set"))) := by
  have hval : ∃ e, validateWebserviceProps s = Except.error e := by
    unfold validateWebserviceProps
    repeat' split
    all_goals first
      | exact ⟨_, rfl⟩
      | simp_all
  obtain ⟨e, he⟩ := hval
  have hrun := runInit_of_validate_error s e he
  refine ⟨by rw [hrun], by rw [hrun]; rfl, ?_⟩
  intro himg
  have hval2 : validateWebserviceProps s
      = Except.error (InitError.assertionError "vpc_id and ecs_cluster_in_vpc cannot both be set; the vpc associated with the cluster will be used when ecs_cluster_in_vpc is set") := by
    rcases hclv : s.ecs_cluster_in_vpc with _ | u
    · rw [hclv] at hcl
      simp [objTruthy] at hcl
    · unfold validateWebserviceProps
      rw [himg, hclv]
      simp [objTruthy, hv]
  exact runInit_of_validate_error s _ hval2

/-- Witness for C7 at a spec supplying both network inputs (the argument
combination that UIBackendService always passes). -/
theorem c7_network_resolver_conflict_witness :
    (runInit c7BothSpec).resources = []
    ∧ (runInit c7BothSpec).err.isSome = true
    ∧ (c7BothSpec.docker_image = none →
        runInit c7BothSpec = BuildState.mk []
          (some (InitError.assertionError "vpc_id and ecs_cluster_in_vpc cannot both be set; the vpc associated with the cluster will be used when ecs_cluster_in_vpc is set"))) :=
  c7_network_resolver_conflict c7BothSpec (by decide) (by decide)

/-- C8: the autoscaling binder attaches exactly two policies, CPU-triggered and
memory-triggered in that order, to a scalable target bounded by
[min_tasks, max_tasks]; and with min_tasks = max_tasks = 1 every scale action of
the external engine leaves the replica count at 1, whatever value the policies
request. -/
theorem c8_autoscaling_bounds (id_pre : String) (min_tasks max_tasks : Int)
    (cpu_u mem_u : Int) (ic oc : Option Int) :
    (configure_ecs_service_auto_scaling id_pre min_tasks max_tasks cpu_u mem_u ic oc).policies.length = 2
    ∧ (configure_ecs_service_auto_scaling id_pre min_tasks max_tasks cpu_u mem_u ic oc).policies.map
        (fun pol => pol.metric) = [ScalingMetric.cpu, ScalingMetric.memory]
    ∧ (configure_ecs_service_auto_scaling id_pre min_tasks max_tasks cpu_u mem_u ic oc).min_capacity = min_tasks
    ∧ (configure_ecs_service_auto_scaling id_pre min_tasks max_tasks cpu_u mem_u ic oc).max_capacity = max_tasks
    ∧ (min_tasks = 1 → max_tasks = 1 → ∀ requested : Int,
        applyScaleAction (configure_ecs_service_auto_scaling id_pre min_tasks max_tasks cpu_u mem_u ic oc)
          requested = 1) := by
  refine ⟨rfl, rfl, rfl, rfl, ?_⟩
  intro h1 h2 requested
  simp only [applyScaleAction, configure_ecs_service_auto_scaling, h1, h2]
  omega

/-- Witness for C8 with min_tasks = max_tasks = 1 and a scale action requesting
7 replicas. -/
theorem c8_autoscaling_bounds_witness :
    applyScaleAction (configure_ecs_service_auto_scaling "svc" 1 1 50 50 none none) 7 = 1 :=
  (c8_autoscaling_bounds "svc" 1 1 50 50 none none).2.2.2.2 rfl rfl 7

/-- C9 counterexample: a spec with two mappings that passes validation but has no
image source makes construction abort with an image-resolution error, not a
duplicate-construct-id error, so the claim does not hold for every validated
multi-mapping spec. -/
theorem c9_duplicate_id_counterexample :
    validateWebserviceProps c9NoImageSpec = Except.ok 3000
    ∧ 2 ≤ c9NoImageSpec.load_balancer_to_container_port_mappings.length
    ∧ (runInit c9NoImageSpec).err = some InitError.imageResolutionError
    ∧ isDuplicateIdErr (runInit c9NoImageSpec).err = false := by decide

/-- C9 amended: for every spec that passes validation, has two or more port
mappings, and supplies an image source (so construction reaches the routing
stage), the invocation aborts with a duplicate-construct-id error on the fixed
id construct_id ++ "TargetGroup", and no Listener construct is ever created. -/
theorem c9_duplicate_construct_ids (s : WebserviceProps) (hc : Int)
    (hok : validateWebserviceProps s = Except.ok hc)
    (hlen : 2 ≤ s.load_balancer_to_container_port_mappings.length)
    (himg : s.docker_image.isSome = true ∨ s.docker_build_context.isSome = true) :
    (runInit s).err = some (InitError.duplicateConstructId (s.construct_id ++ "TargetGroup"))
    ∧ (runInit s).resources.all (fun r => !isListenerRes r) = true := by
  obtain ⟨pm1, pm2, rest, hlist⟩ : ∃ pm1 pm2 rest,
      s.load_balancer_to_container_port_mappings = pm1 :: pm2 :: rest := by
    rcases hl : s.load_balancer_to_container_port_mappings with _ | ⟨a, _ | ⟨b, t⟩⟩
    · rw [hl] at hlen; simp at hlen
    · rw [hl] at hlen; simp at hlen
    · exact ⟨a, b, t, rfl⟩
  unfold runInit
  rw [hok]
  unfold constructPhase
  rw [hlist]
  rcases himg with h | h
  · rcases himg2 : s.docker_image with _ | u
    · rw [himg2] at h; simp at h
    · cases hcl : s.ecs_cluster_in_vpc <;> cases hlb : s.load_balancer <;>
        simp [hcl, hlb, himg2, create_or_lookup_vpc, make_webservice_task_definition,
          make_container_port_to_target_group_mapping, make_target_group,
          PortMapping.list_container_ports, isListenerRes, failWith, List.foldl_cons]
  · rcases hctx2 : s.docker_build_context with _ | c
    · rw [hctx2] at h; simp at h
    · rcases himg2 : s.docker_image with _ | u <;>
        cases hcl : s.ecs_cluster_in_vpc <;> cases hlb : s.load_balancer <;>
        simp [hcl, hlb, himg2, hctx2, create_or_lookup_vpc, make_webservice_task_definition,
          make_container_port_to_target_group_mapping, make_target_group,
          PortMapping.list_container_ports, isListenerRes, failWith, List.foldl_cons]

/-- Witness for C9 at a validated two-mapping spec with distinct container ports
and a registry image. -/
theorem c9_duplicate_construct_ids_witness :
    (runInit c9WitnessSpec).err
      = some (InitError.duplicateConstructId (c9WitnessSpec.construct_id ++ "TargetGroup"))
    ∧ (runInit c9WitnessSpec).resources.all (fun r => !isListenerRes r) = true :=
  c9_duplicate_construct_ids c9WitnessSpec 3000 (by decide) (by decide) (Or.inl (by decide))

/-- C10: whatever cooldown values the caller supplies, the memory-utilization
policy is attached with no cooldown configuration, while the CPU-utilization
policy carries exactly the supplied cooldown values. -/
theorem c10_memory_policy_no_cooldown (id_pre : String) (min_tasks max_tasks : Int)
    (cpu_u mem_u : Int) (ic oc : Option Int) :
    (∀ pol ∈ (configure_ecs_service_auto_scaling id_pre min_tasks max_tasks cpu_u mem_u ic oc).policies,
      pol.metric = ScalingMetric.memory →
        pol.scale_in_cooldown = none ∧ pol.scale_out_cooldown = none)
    ∧ (∀ pol ∈ (configure_ecs_service_auto_scaling id_pre min_tasks max_tasks cpu_u mem_u ic oc).policies,
      pol.metric = ScalingMetric.cpu →
        pol.scale_in_cooldown = ic ∧ pol.scale_out_cooldown = oc) := by
  constructor <;> intro pol hmem hmetric <;>
    (simp only [configure_ecs_service_auto_scaling, List.mem_cons,
       List.not_mem_nil, or_false] at hmem
     rcases hmem with h | h) <;> subst h <;> simp_all

/-- Witness for C10: the memory policy of a concrete configuration has no
cooldowns even though both cooldown values were supplied. -/
theorem c10_memory_policy_no_cooldown_witness :
    ({ id := "svcMemoryScaling", metric := ScalingMetric.memory,
       target_utilization_percent := 60, scale_in_cooldown := none,
       scale_out_cooldown := none } : ScalingPolicy).scale_in_cooldown = none
    ∧ ({ id := "svcMemoryScaling", metric := ScalingMetric.memory,
         target_utilization_percent := 60, scale_in_cooldown := none,
         scale_out_cooldown := none } : ScalingPolicy).scale_out_cooldown = none :=
  (c10_memory_policy_no_cooldown "svc" 1 2 50 60 (some 60) (some 120)).1
    { id := "svcMemoryScaling", metric := ScalingMetric.memory,
      target_utilization_percent := 60, scale_in_cooldown := none,
      scale_out_cooldown := none } (by decide) rfl

end CdkMetaflow
